import Mathlib

/-
Verification of the quiz-generation pipeline (quiz_generator.py, utils.py,
pdf_processor.py, app.py): a shallow embedding of the string-processing,
JSON-recovery, retry, partitioning and validation logic, followed by theorems
about the embedded definitions.

Python strings are modelled as `List Char` / `String`; Python dicts produced
by `json.loads` as insertion-ordered association lists with unique keys
(`PyDict`); fallible Python code as `Option` / `Except`.  The float
computation `int(num_questions * 0.7)` is modelled exactly, as IEEE-754
binary64 multiplication (correct rounding to a 53-bit significand,
round-half-to-even) followed by truncation.
-/

/-! Python string helpers.  `pySpace` is the ASCII whitespace stripped by
`str.strip()` and matched by the regex class `\s`. -/

def pySpace (c : Char) : Bool :=
  c = ' ' || c = '\t' || c = '\n' || c = '\r' || c = '\x0b' || c = '\x0c'

def pyStrip (l : List Char) : List Char :=
  ((l.dropWhile pySpace).reverse.dropWhile pySpace).reverse

/-! JSON values as produced by `json.loads`.  Numbers keep their raw token:
no claim depends on numeric values, only on the shape of the data.  Objects
are insertion-ordered association lists with unique keys (later duplicate
keys overwrite in place, as in a Python dict). -/

inductive JVal : Type where
  | null : JVal
  | bool (b : Bool) : JVal
  | num (raw : List Char) : JVal
  | str (s : String) : JVal
  | arr (elems : List JVal) : JVal
  | obj (entries : List (String × JVal)) : JVal

abbrev PyDict := List (String × JVal)

/-- Python `d[k] = v`: overwrite in place if the key exists, else append. -/
def dictSet : PyDict → String → JVal → PyDict
  | [], k, v => [(k, v)]
  | (k', v') :: rest, k, v =>
    if k' = k then (k, v) :: rest else (k', v') :: dictSet rest k v

/-- Python `d.get(k)` on a dict with unique keys. -/
def pyLookup : PyDict → String → Option JVal
  | [], _ => none
  | (k', v) :: rest, k => if k' = k then some v else pyLookup rest k

/-- Python `k in d`. -/
def hasKey (d : PyDict) (k : String) : Bool :=
  (pyLookup d k).isSome

/-- Python builds a dict from a key/value pair list: later duplicates win. -/
def dedupPairs (l : List (String × JVal)) : PyDict :=
  l.foldl (fun d p => dictSet d p.1 p.2) []

/-! A strict JSON parser modelling `json.loads` (with its default
`allow_nan=True` constants).  It works on `List Char`, returns the parsed
value together with the unconsumed input, and is fuelled: the fuel only
decreases when descending into a nested value, and the top-level entry point
supplies more fuel than any input can consume. -/

def jsonWs (c : Char) : Bool :=
  c = ' ' || c = '\t' || c = '\n' || c = '\r'

def skipWs : List Char → List Char
  | [] => []
  | c :: rest => if jsonWs c then skipWs rest else c :: rest

def hexVal (c : Char) : Option Nat :=
  if '0' ≤ c ∧ c ≤ '9' then some (c.toNat - 48)
  else if 'a' ≤ c ∧ c ≤ 'f' then some (c.toNat - 87)
  else if 'A' ≤ c ∧ c ≤ 'F' then some (c.toNat - 55)
  else none

def escChar : Char → Option Char
  | '"' => some '"'
  | '\\' => some '\\'
  | '/' => some '/'
  | 'b' => some '\x08'
  | 'f' => some '\x0c'
  | 'n' => some '\n'
  | 'r' => some '\r'
  | 't' => some '\t'
  | _ => none

/-- The body of a JSON string after the opening quote: returns the decoded
characters and the input after the closing quote.  Strict mode: raw control
characters are rejected. -/
def parseStringBody : List Char → Option (List Char × List Char)
  | [] => none
  | '"' :: rest => some ([], rest)
  | '\\' :: 'u' :: h1 :: h2 :: h3 :: h4 :: rest =>
    match hexVal h1, hexVal h2, hexVal h3, hexVal h4 with
    | some a, some b, some c, some d =>
      (parseStringBody rest).map
        (fun p => (Char.ofNat (((a * 16 + b) * 16 + c) * 16 + d) :: p.1, p.2))
    | _, _, _, _ => none
  | '\\' :: e :: rest =>
    match escChar e with
    | some c => (parseStringBody rest).map (fun p => (c :: p.1, p.2))
    | none => none
  | c :: rest =>
    if c.toNat < 32 then none
    else (parseStringBody rest).map (fun p => (c :: p.1, p.2))

def isDigit (c : Char) : Bool := '0' ≤ c && c ≤ '9'

/-- The integer part of a JSON number: `0` or a nonzero digit followed by
digits (leading zeros are rejected, as by `json.loads`). -/
def parseIntPart : List Char → Option (List Char × List Char)
  | [] => none
  | c :: rest =>
    if c = '0' then some ([c], rest)
    else if '1' ≤ c && c ≤ '9' then
      some (c :: rest.takeWhile isDigit, rest.dropWhile isDigit)
    else none

/-- The optional fraction part `.digits`; consumes nothing if absent. -/
def parseFracPart : List Char → List Char × List Char
  | '.' :: c :: rest =>
    if isDigit c then ('.' :: c :: rest.takeWhile isDigit, rest.dropWhile isDigit)
    else ([], '.' :: c :: rest)
  | l => ([], l)

/-- The optional exponent part `[eE][+-]?digits`; consumes nothing if absent. -/
def parseExpPart (l : List Char) : List Char × List Char :=
  match l with
  | e :: '+' :: d :: rest =>
    if (e = 'e' || e = 'E') && isDigit d then
      (e :: '+' :: d :: rest.takeWhile isDigit, rest.dropWhile isDigit)
    else ([], l)
  | e :: '-' :: d :: rest =>
    if (e = 'e' || e = 'E') && isDigit d then
      (e :: '-' :: d :: rest.takeWhile isDigit, rest.dropWhile isDigit)
    else ([], l)
  | e :: d :: rest =>
    if (e = 'e' || e = 'E') && isDigit d then
      (e :: d :: rest.takeWhile isDigit, rest.dropWhile isDigit)
    else ([], l)
  | _ => ([], l)

def parseNumber (l : List Char) : Option (JVal × List Char) :=
  match l with
  | '-' :: rest =>
    match parseIntPart rest with
    | none => none
    | some (ip, r1) =>
      match parseFracPart r1 with
      | (fp, r2) =>
        match parseExpPart r2 with
        | (ep, r3) => some (JVal.num ('-' :: (ip ++ fp ++ ep)), r3)
  | _ =>
    match parseIntPart l with
    | none => none
    | some (ip, r1) =>
      match parseFracPart r1 with
      | (fp, r2) =>
        match parseExpPart r2 with
        | (ep, r3) => some (JVal.num (ip ++ fp ++ ep), r3)

mutual

def parseValue : Nat → List Char → Option (JVal × List Char)
  | 0, _ => none
  | fuel+1, l =>
    match skipWs l with
    | [] => none
    | '"' :: rest =>
      (parseStringBody rest).map (fun p => (JVal.str (String.mk p.1), p.2))
    | '{' :: rest =>
      (match skipWs rest with
       | '}' :: r2 => some (JVal.obj [], r2)
       | l2 => (parseObjTail fuel l2).map (fun p => (JVal.obj (dedupPairs p.1), p.2)))
    | '[' :: rest =>
      (match skipWs rest with
       | ']' :: r2 => some (JVal.arr [], r2)
       | l2 => (parseArrTail fuel l2).map (fun p => (JVal.arr p.1, p.2)))
    | 't' :: 'r' :: 'u' :: 'e' :: rest => some (JVal.bool true, rest)
    | 'f' :: 'a' :: 'l' :: 's' :: 'e' :: rest => some (JVal.bool false, rest)
    | 'n' :: 'u' :: 'l' :: 'l' :: rest => some (JVal.null, rest)
    | 'N' :: 'a' :: 'N' :: rest => some (JVal.num ['N', 'a', 'N'], rest)
    | 'I' :: 'n' :: 'f' :: 'i' :: 'n' :: 'i' :: 't' :: 'y' :: rest =>
      some (JVal.num "Infinity".toList, rest)
    | '-' :: 'I' :: 'n' :: 'f' :: 'i' :: 'n' :: 'i' :: 't' :: 'y' :: rest =>
      some (JVal.num "-Infinity".toList, rest)
    | l2 => parseNumber l2

/-- The elements of a non-empty array, after the opening `[` (and any leading
whitespace): value, then `,` and more elements or the closing `]`. -/
def parseArrTail : Nat → List Char → Option (List JVal × List Char)
  | 0, _ => none
  | fuel+1, l =>
    match parseValue fuel l with
    | none => none
    | some (v, r1) =>
      match skipWs r1 with
      | ',' :: r2 => (parseArrTail fuel r2).map (fun p => (v :: p.1, p.2))
      | ']' :: r2 => some ([v], r2)
      | _ => none

/-- The members of a non-empty object, after the opening `{` (and any leading
whitespace): a string key, `:`, a value, then `,` and more members or the
closing brace. -/
def parseObjTail : Nat → List Char → Option (List (String × JVal) × List Char)
  | 0, _ => none
  | fuel+1, l =>
    match skipWs l with
    | '"' :: rest =>
      (match parseStringBody rest with
       | none => none
       | some (k, r1) =>
         match skipWs r1 with
         | ':' :: r2 =>
           (match parseValue fuel r2 with
            | none => none
            | some (v, r3) =>
              match skipWs r3 with
              | ',' :: r4 =>
                (parseObjTail fuel r4).map (fun p => ((String.mk k, v) :: p.1, p.2))
              | '}' :: r4 => some ([(String.mk k, v)], r4)
              | _ => none)
         | _ => none)
    | _ => none

end

/-- Python `json.loads`: parse one value and require only whitespace after it.
`none` models a raised `json.JSONDecodeError`. -/
def parseJson (l : List Char) : Option JVal :=
  match parseValue (2 * l.length + 2) l with
  | some (v, rest) =>
    (match skipWs rest with
     | [] => some v
     | _ => none)
  | none => none

/-! The repair pass of `_extract_json_from_response`:
`json_text.replace("'", '"')` followed by
`re.sub(r',(\s*[}\]])', r'\1', fixed_text)`. -/

def replaceQuotes (l : List Char) : List Char :=
  l.map (fun c => if c = '\'' then '"' else c)

/-- Match `\s*[}\]]` at the start of the input: the whitespace run, the
closing bracket and the rest (`\s` and `[}\]]` are disjoint, so the greedy
match needs no backtracking). -/
def wsCloseSplit (l : List Char) : Option (List Char × Char × List Char) :=
  match l.dropWhile pySpace with
  | c :: rest =>
    if c = '}' || c = ']' then some (l.takeWhile pySpace, c, rest) else none
  | [] => none

/-- `re.sub(r',(\s*[}\]])', r'\1', l)`: left-to-right, non-overlapping; each
match drops the comma and keeps the whitespace and closing bracket, and
scanning resumes after the match.  Fuelled; every step consumes at least one
character, so fuel equal to the length suffices. -/
def fixTrailingCommas : Nat → List Char → List Char
  | 0, l => l
  | _, [] => []
  | fuel+1, ',' :: rest =>
    (match wsCloseSplit rest with
     | some (ws, c, rest') => ws ++ c :: fixTrailingCommas fuel rest'
     | none => ',' :: fixTrailingCommas fuel rest)
  | fuel+1, c :: rest => c :: fixTrailingCommas fuel rest

def repairJson (l : List Char) : List Char :=
  fixTrailingCommas (replaceQuotes l).length (replaceQuotes l)

/-! The response-to-records recovery pipeline
(`QuizGenerator._extract_json_from_response`). -/

/-- Code-fence stripping: drop a leading ```` ```json ```` (7 chars) or
```` ``` ```` (3 chars), then a trailing ```` ``` ````. -/
def stripFences (t : List Char) : List Char :=
  let t1 :=
    if "```json".toList.isPrefixOf t then t.drop 7
    else if "```".toList.isPrefixOf t then t.drop 3
    else t
  if "```".toList.isSuffixOf t1 then t1.take (t1.length - 3) else t1

def preprocess (s : List Char) : List Char :=
  pyStrip (stripFences (pyStrip s))

/-- Python `text.find(c)`: first index, or -1. -/
def strFind (l : List Char) (c : Char) : Int :=
  match l.findIdx? (fun x => x = c) with
  | some i => (i : Int)
  | none => -1

/-- Python `text.rfind(c)`: last index, or -1. -/
def strRfind (l : List Char) (c : Char) : Int :=
  match l.reverse.findIdx? (fun x => x = c) with
  | some i => (l.length : Int) - 1 - (i : Int)
  | none => -1

/-- `start_idx = text.find('[')`, `end_idx = text.rfind(']') + 1`; the slice
`text[start_idx:end_idx]` when `start_idx != -1 and end_idx > start_idx`,
else `none` (the branch that returns `[]`). -/
def bracketSlice (t : List Char) : Option (List Char) :=
  let start := strFind t '['
  let stop := strRfind t ']' + 1
  if start ≠ -1 ∧ start < stop then
    some ((t.drop start.toNat).take (stop - start).toNat)
  else none

/-- The per-element loop over a parsed array: keep dict elements that have
both a `question` and a `correct_answer` key, tagging each with
`q['type'] = question_type`. -/
def processQuestions : List JVal → String → List PyDict
  | [], _ => []
  | JVal.obj kvs :: rest, question_type =>
    if hasKey kvs "question" && hasKey kvs "correct_answer" then
      dictSet kvs "type" (JVal.str question_type) :: processQuestions rest question_type
    else processQuestions rest question_type
  | _ :: rest, question_type => processQuestions rest question_type

/-- The `Option`-valued form of one kept element, for stating that
`processQuestions` is an order-preserving filter. -/
def keepRecord (question_type : String) : JVal → Option PyDict
  | JVal.obj kvs =>
    if hasKey kvs "question" && hasKey kvs "correct_answer" then
      some (dictSet kvs "type" (JVal.str question_type))
    else none
  | _ => none

/-- `QuizGenerator._extract_json_from_response`: strip fences, slice between
the first `[` and the last `]`, strict parse, on failure repair and re-parse;
a parsed non-array, a failed re-parse, or missing brackets all yield `[]`.
Total: no exception escapes. -/
def _extract_json_from_response (response_text : String) (question_type : String) :
    List PyDict :=
  match bracketSlice (preprocess response_text.toList) with
  | none => []
  | some json_text =>
    match parseJson json_text with
    | some (JVal.arr l) => processQuestions l question_type
    | some _ => []
    | none =>
      match parseJson (repairJson json_text) with
      | some (JVal.arr l) => processQuestions l question_type
      | _ => []

/-! The retry controller shared by `_generate_multiple_choice_questions` and
`_generate_true_false_questions`.  The LLM boundary is an oracle
`llm : Nat → Except Unit String` giving each attempt's outcome:
`Except.error ()` models a raised exception, `Except.ok text` the response
(`text = ""` models a falsy `response.text`). -/

/-- One attempt's outcome: `some qs` when the attempt returns (exactly the
requested count, or a non-empty recovery truncated to it), `none` when the
loop falls through to the next attempt (exception, falsy response text, or
zero recovered records). -/
def attemptOutcome (resp : Except Unit String) (question_type : String) (count : Nat) :
    Option (List PyDict) :=
  match resp with
  | Except.error _ => none
  | Except.ok text =>
    if text = "" then none
    else if (_extract_json_from_response text question_type).length = count then
      some (_extract_json_from_response text question_type)
    else if 0 < (_extract_json_from_response text question_type).length then
      some ((_extract_json_from_response text question_type).take count)
    else none

/-- `for attempt in range(max_retries)`: return the first attempt's accepted
output, else `[]` once attempts are exhausted (the exception-on-last-attempt
`return []` and the fall-through `return []` coincide). -/
def retryLoop (llm : Nat → Except Unit String) (question_type : String) (count : Nat) :
    Nat → Nat → List PyDict
  | _, 0 => []
  | attempt, remaining+1 =>
    match attemptOutcome (llm attempt) question_type count with
    | some qs => qs
    | none => retryLoop llm question_type count (attempt + 1) remaining

def _generate_multiple_choice_questions (llm : Nat → Except Unit String)
    (count : Nat) : List PyDict :=
  retryLoop llm "multiple_choice" count 0 2

def _generate_true_false_questions (llm : Nat → Except Unit String)
    (count : Nat) : List PyDict :=
  retryLoop llm "true_false" count 0 2

/-! The type-mix partitioner of `generate_quiz`: `int(num_questions * 0.7)`
computed in IEEE-754 binary64.  `0.7` is not representable; the nearest
double is `c07 / 2^53`, and the multiplication rounds the exact product to
53 significant bits, ties to even.  `int()` then truncates toward zero. -/

/-- Bit length, fuelled (exact for inputs below `2 ^ fuel`). -/
def blFuel : Nat → Nat → Nat
  | 0, _ => 0
  | f+1, n => if n = 0 then 0 else blFuel f (n / 2) + 1

/-- The integer significand of the IEEE-754 double nearest to 0.7:
`0.7 ≈ c07 / 2^53`. -/
def c07 : Nat := 6305039478318694

/-- Cut `t` to a multiple of `2^shift`, rounding to nearest with ties to the
even quotient: the significand truncation step of binary64 rounding. -/
def roundAt (t shift : Nat) : Nat :=
  if 2 ^ (shift - 1) < t % 2 ^ shift ∨
      (t % 2 ^ shift = 2 ^ (shift - 1) ∧ t / 2 ^ shift % 2 = 1) then
    (t / 2 ^ shift + 1) * 2 ^ shift
  else t / 2 ^ shift * 2 ^ shift

/-- Round `t / 2^53` to the nearest binary64 value (round half to even),
returned as a numerator over `2^53`.  For `t < 2^53` the value is exact;
otherwise the significand is cut to 53 bits.  Exact for every product
arising from `n * c07` with `n < 2^75`. -/
def fpRound53 (t : Nat) : Nat :=
  if t < 2 ^ 53 then t else roundAt t (blFuel 128 (t / 2 ^ 53))

/-- Python `int(n * 0.7)` for a nonnegative int `n` (exactly convertible to
double): correctly-rounded double multiplication, then truncation. -/
def pyInt07 (n : Nat) : Nat :=
  fpRound53 (n * c07) / 2 ^ 53

/-- `mc_count` as computed by `generate_quiz`. -/
def mc_count (num_questions : Nat) (question_types : List String) : Nat :=
  if "Multiple Choice" ∈ question_types ∧ "True/False" ∈ question_types then
    pyInt07 num_questions
  else if "Multiple Choice" ∈ question_types then num_questions
  else 0

/-- `tf_count` as computed by `generate_quiz`. -/
def tf_count (num_questions : Nat) (question_types : List String) : Nat :=
  if "Multiple Choice" ∈ question_types ∧ "True/False" ∈ question_types then
    num_questions - pyInt07 num_questions
  else if "Multiple Choice" ∈ question_types then 0
  else if "True/False" ∈ question_types then num_questions
  else 0

/-- `QuizGenerator.generate_quiz`: partition the requested count, run the
MultipleChoice batch when its sub-count is positive, then the TrueFalse
batch, and concatenate.  `llmMC`/`llmTF` are the per-batch response oracles
(each batch issues its own LLM calls). -/
def generate_quiz (llmMC llmTF : Nat → Except Unit String) (num_questions : Nat)
    (question_types : List String) : List PyDict :=
  (if 0 < mc_count num_questions question_types then
    _generate_multiple_choice_questions llmMC (mc_count num_questions question_types)
  else []) ++
  (if 0 < tf_count num_questions question_types then
    _generate_true_false_questions llmTF (tf_count num_questions question_types)
  else [])

/-! The two schema validators: `utils.validate_question_data` (single record)
and `QuizGenerator.validate_quiz_data` (list of records). -/

/-- Python `q[k] == s` for a string literal `s` (a non-string value never
equals a `str`). -/
def isStrVal (v : Option JVal) (s : String) : Bool :=
  match v with
  | some (JVal.str t) => t = s
  | _ => false

/-- Python `q[k] in choices` for a list of string literals. -/
def answerIn (v : Option JVal) (choices : List String) : Bool :=
  match v with
  | some (JVal.str t) => choices.contains t
  | _ => false

def required_ok (q : PyDict) : Bool :=
  hasKey q "question" && hasKey q "correct_answer" && hasKey q "type"

/-- `utils.validate_question_data`: required fields; for `multiple_choice`,
`options` present, a list of length exactly 4, and `correct_answer` in
A/B/C/D; for `true_false`, `correct_answer` in True/False; any other type is
invalid.  The `isinstance(question['options'], list)` check precedes `len`,
so this validator never raises. -/
def validate_question_data (question : PyDict) : Bool :=
  if ¬ required_ok question then false
  else if isStrVal (pyLookup question "type") "multiple_choice" then
    match pyLookup question "options" with
    | none => false
    | some opts =>
      match opts with
      | JVal.arr l =>
        if l.length ≠ 4 then false
        else answerIn (pyLookup question "correct_answer") ["A", "B", "C", "D"]
      | _ => false
  else if isStrVal (pyLookup question "type") "true_false" then
    answerIn (pyLookup question "correct_answer") ["True", "False"]
  else false

/-- Python `len`: defined on strings, lists and dicts; raises `TypeError`
(modelled as `none`) on other values. -/
def pyLen : JVal → Option Nat
  | JVal.str s => some s.length
  | JVal.arr l => some l.length
  | JVal.obj l => some l.length
  | _ => none

/-- `QuizGenerator.validate_quiz_data`: like the utils validator over a list,
but with two differences taken from the source: it has no `isinstance`
check before `len(question['options'])` (a `len`-less value raises, modelled
as `none`), and it has no `else: return False` arm, so an unknown `type`
passes. -/
def validate_quiz_data : List PyDict → Option Bool
  | [] => some true
  | question :: rest =>
    if ¬ required_ok question then some false
    else if isStrVal (pyLookup question "type") "multiple_choice" then
      match pyLookup question "options" with
      | none => some false
      | some opts =>
        match pyLen opts with
        | none => none
        | some n =>
          if n ≠ 4 then some false
          else if ¬ answerIn (pyLookup question "correct_answer") ["A", "B", "C", "D"] then
            some false
          else validate_quiz_data rest
    else if isStrVal (pyLookup question "type") "true_false" then
      if ¬ answerIn (pyLookup question "correct_answer") ["True", "False"] then some false
      else validate_quiz_data rest
    else validate_quiz_data rest

/-! The PDF extraction boundary (`PDFProcessor.extract_text_from_pdf`) and
the app-side success test.  `primary` models `_extract_with_pypdf2`
(re-raises on failure, message in `Except.error`); `fallback` models
`_extract_with_unstructured` (catches its own exceptions, returns `None` or
text). -/

def no_readable_msg : String :=
  "No readable text could be extracted from this PDF."

def extract_text_from_pdf (primary : Except String String) (fallback : Option String) :
    String :=
  match primary with
  | Except.error e => "Error processing PDF: " ++ e
  | Except.ok text =>
    if text ≠ "" ∧ 50 < (pyStrip text.toList).length then text
    else
      match fallback with
      | some t2 =>
        if t2 ≠ "" ∧ 100 < (pyStrip t2.toList).length then t2 else no_readable_msg
      | none => no_readable_msg

/-- app.py's gate after extraction: `if extracted_text.strip():` marks the
PDF processed and enables quiz generation. -/
def app_marks_pdf_processed (extracted_text : String) : Bool :=
  !(pyStrip extracted_text.toList).isEmpty

/-! Helper lemmas: the rounding model. -/

theorem blFuel_zero (f : Nat) : blFuel f 0 = 0 := by
  cases f <;> simp [blFuel]

theorem blFuel_pred_pow_le : ∀ (f n : Nat), 0 < n → 2 ^ (blFuel f n - 1) ≤ n := by
  intro f
  induction f with
  | zero => intro n hn; simpa [blFuel] using hn
  | succ f ih =>
    intro n hn
    rw [blFuel, if_neg (Nat.pos_iff_ne_zero.mp hn), Nat.add_sub_cancel]
    rcases Nat.eq_zero_or_pos (n / 2) with h0 | hpos
    · rw [h0, blFuel_zero]; simpa using hn
    · rcases Nat.eq_zero_or_pos (blFuel f (n / 2)) with hb | hb
      · rw [hb]; simpa using hn
      · have hle := ih (n / 2) hpos
        calc 2 ^ blFuel f (n / 2) = 2 ^ (blFuel f (n / 2) - 1 + 1) := by
              rw [Nat.sub_add_cancel hb]
          _ = 2 ^ (blFuel f (n / 2) - 1) * 2 := by rw [pow_succ]
          _ ≤ (n / 2) * 2 := Nat.mul_le_mul_right 2 hle
          _ ≤ n := Nat.div_mul_le_self n 2

theorem blFuel_pos (f n : Nat) (hn : 0 < n) : 0 < blFuel (f + 1) n := by
  rw [blFuel, if_neg (Nat.pos_iff_ne_zero.mp hn)]
  exact Nat.succ_pos _

theorem roundAt_le (t shift : Nat) : roundAt t shift ≤ (t / 2 ^ shift + 1) * 2 ^ shift := by
  rw [roundAt]
  split
  · exact Nat.le_refl _
  · exact Nat.mul_le_mul_right _ (Nat.le_succ _)

theorem fpRound53_le_mul (n : Nat) : fpRound53 (n * c07) ≤ n * 2 ^ 53 := by
  rw [fpRound53]
  split
  case isTrue h =>
    have hc : c07 ≤ 2 ^ 53 := by rw [c07]; norm_num
    exact Nat.mul_le_mul_left n hc
  case isFalse h =>
    push_neg at h
    have hdivpos : 0 < n * c07 / 2 ^ 53 := Nat.div_pos h (by positivity)
    have hshiftpos : 0 < blFuel 128 (n * c07 / 2 ^ 53) := blFuel_pos 127 _ hdivpos
    set t := n * c07 with ht
    set shift := blFuel 128 (t / 2 ^ 53) with hshift
    have hkey : 2 ^ shift * 2 ^ 52 ≤ t := by
      have h1 : 2 ^ (shift - 1) ≤ t / 2 ^ 53 := blFuel_pred_pow_le 128 _ hdivpos
      have h2 : 2 ^ (shift - 1) * 2 ^ 53 ≤ t / 2 ^ 53 * 2 ^ 53 :=
        Nat.mul_le_mul_right _ h1
      have h3 : t / 2 ^ 53 * 2 ^ 53 ≤ t := Nat.div_mul_le_self t _
      have h4 : 2 ^ shift * 2 ^ 52 = 2 ^ (shift - 1) * 2 ^ 53 := by
        rw [← pow_add, ← pow_add]
        congr 1
        omega
      omega
    have hq : t / 2 ^ shift * 2 ^ shift ≤ t := Nat.div_mul_le_self t _
    have hbound : (t / 2 ^ shift + 1) * 2 ^ shift ≤ n * 2 ^ 53 := by
      have hc : c07 * (2 ^ 52 + 1) ≤ 2 ^ 105 := by rw [c07]; norm_num
      have h5 : (t / 2 ^ shift + 1) * 2 ^ shift * 2 ^ 52 ≤ n * 2 ^ 53 * 2 ^ 52 := by
        calc (t / 2 ^ shift + 1) * 2 ^ shift * 2 ^ 52
            = (t / 2 ^ shift * 2 ^ shift) * 2 ^ 52 + 2 ^ shift * 2 ^ 52 := by ring
          _ ≤ t * 2 ^ 52 + t := by
              have := Nat.mul_le_mul_right (2 ^ 52) hq
              omega
          _ = t * (2 ^ 52 + 1) := by ring
          _ = n * (c07 * (2 ^ 52 + 1)) := by rw [ht]; ring
          _ ≤ n * 2 ^ 105 := Nat.mul_le_mul_left n hc
          _ = n * 2 ^ 53 * 2 ^ 52 := by ring
      exact Nat.le_of_mul_le_mul_right h5 (by positivity)
    exact le_trans (roundAt_le t shift) hbound

theorem pyInt07_le (n : Nat) : pyInt07 n ≤ n := by
  rw [pyInt07]
  calc fpRound53 (n * c07) / 2 ^ 53 ≤ n * 2 ^ 53 / 2 ^ 53 :=
        Nat.div_le_div_right (fpRound53_le_mul n)
    _ = n := Nat.mul_div_cancel n (by positivity)

theorem mc_count_le (n : Nat) (qt : List String) : mc_count n qt ≤ n := by
  rw [mc_count]
  split
  · exact pyInt07_le n
  · split <;> omega

theorem counts_sum_eq (n : Nat) (qt : List String)
    (h : "Multiple Choice" ∈ qt ∨ "True/False" ∈ qt) :
    mc_count n qt + tf_count n qt = n := by
  rw [mc_count, tf_count]
  by_cases hmc : "Multiple Choice" ∈ qt <;> by_cases htf : "True/False" ∈ qt
  · simp only [if_pos (And.intro hmc htf)]
    have := pyInt07_le n
    omega
  · simp only [hmc, htf, and_false, if_false, if_pos hmc, if_true]
    omega
  · simp only [hmc, htf, false_and, if_false, if_pos htf]
    simp [hmc]
  · cases h <;> contradiction

theorem counts_sum_le (n : Nat) (qt : List String) :
    mc_count n qt + tf_count n qt ≤ n := by
  by_cases h : "Multiple Choice" ∈ qt ∨ "True/False" ∈ qt
  · exact (counts_sum_eq n qt h).le
  · push_neg at h
    rw [mc_count, tf_count]
    simp [h.1, h.2]

/-! Helper lemmas: dict operations and the recovery filter. -/

theorem pyLookup_dictSet_self (d : PyDict) (k : String) (v : JVal) :
    pyLookup (dictSet d k v) k = some v := by
  induction d with
  | nil => simp [dictSet, pyLookup]
  | cons p rest ih =>
    obtain ⟨k', v'⟩ := p
    rw [dictSet]
    by_cases h : k' = k
    · rw [if_pos h, pyLookup, if_pos rfl]
    · rw [if_neg h, pyLookup, if_neg h]
      exact ih

theorem pyLookup_dictSet_ne (d : PyDict) {k k' : String} (v : JVal) (h : k' ≠ k) :
    pyLookup (dictSet d k v) k' = pyLookup d k' := by
  have hne : ¬ (k = k') := fun hh => h hh.symm
  induction d with
  | nil => simp [dictSet, pyLookup, hne]
  | cons p rest ih =>
    obtain ⟨k0, v0⟩ := p
    rw [dictSet]
    by_cases h0 : k0 = k
    · subst h0
      simp [pyLookup, hne]
    · rw [if_neg h0, pyLookup, pyLookup]
      by_cases h1 : k0 = k'
      · rw [if_pos h1, if_pos h1]
      · rw [if_neg h1, if_neg h1]
        exact ih

theorem hasKey_dictSet_ne (d : PyDict) {k k' : String} (v : JVal) (h : k' ≠ k) :
    hasKey (dictSet d k v) k' = hasKey d k' := by
  rw [hasKey, hasKey, pyLookup_dictSet_ne d v h]

theorem keepRecord_keys {question_type : String} {v : JVal} {q : PyDict}
    (h : keepRecord question_type v = some q) :
    hasKey q "question" = true ∧ hasKey q "correct_answer" = true ∧
      pyLookup q "type" = some (JVal.str question_type) := by
  cases v with
  | obj kvs =>
    rw [keepRecord] at h
    split at h
    case isTrue hcond =>
      rw [Option.some_inj] at h
      subst h
      have hks := Bool.and_eq_true_iff.mp hcond
      refine ⟨?_, ?_, pyLookup_dictSet_self kvs "type" _⟩
      · rw [hasKey_dictSet_ne kvs _ (by decide)]
        exact hks.1
      · rw [hasKey_dictSet_ne kvs _ (by decide)]
        exact hks.2
    case isFalse hcond => simp at h
  | null => simp [keepRecord] at h
  | bool b => simp [keepRecord] at h
  | num raw => simp [keepRecord] at h
  | str s => simp [keepRecord] at h
  | arr elems => simp [keepRecord] at h

theorem processQuestions_eq_filterMap (l : List JVal) (question_type : String) :
    processQuestions l question_type = l.filterMap (keepRecord question_type) := by
  induction l with
  | nil => rfl
  | cons v rest ih =>
    cases v with
    | obj kvs =>
      by_cases hcond : (hasKey kvs "question" && hasKey kvs "correct_answer") = true
      · rw [processQuestions, if_pos hcond, List.filterMap_cons, keepRecord, if_pos hcond]
        simp [ih]
      · rw [processQuestions, if_neg hcond, List.filterMap_cons, keepRecord, if_neg hcond]
        simp [ih]
    | null => simpa [processQuestions, List.filterMap_cons, keepRecord] using ih
    | bool b => simpa [processQuestions, List.filterMap_cons, keepRecord] using ih
    | num raw => simpa [processQuestions, List.filterMap_cons, keepRecord] using ih
    | str s => simpa [processQuestions, List.filterMap_cons, keepRecord] using ih
    | arr elems => simpa [processQuestions, List.filterMap_cons, keepRecord] using ih

theorem mem_processQuestions {q : PyDict} {l : List JVal} {question_type : String}
    (h : q ∈ processQuestions l question_type) :
    hasKey q "question" = true ∧ hasKey q "correct_answer" = true ∧
      pyLookup q "type" = some (JVal.str question_type) := by
  rw [processQuestions_eq_filterMap] at h
  obtain ⟨v, _, hv⟩ := List.mem_filterMap.mp h
  exact keepRecord_keys hv

/-- Every element of a recovery result has the required keys and the
expected type tag. -/
theorem mem_extract_keys {q : PyDict} {response_text question_type : String}
    (h : q ∈ _extract_json_from_response response_text question_type) :
    hasKey q "question" = true ∧ hasKey q "correct_answer" = true ∧
      pyLookup q "type" = some (JVal.str question_type) := by
  rw [_extract_json_from_response] at h
  split at h
  · cases h
  · split at h
    · exact mem_processQuestions h
    · cases h
    · split at h
      · exact mem_processQuestions h
      · cases h

/-! Helper lemmas: the retry controller. -/

theorem attemptOutcome_length {resp : Except Unit String} {question_type : String}
    {count : Nat} {qs : List PyDict}
    (h : attemptOutcome resp question_type count = some qs) : qs.length ≤ count := by
  cases resp with
  | error e => simp [attemptOutcome] at h
  | ok text =>
    rw [attemptOutcome] at h
    split at h
    · cases h
    · split at h
      case isTrue hlen => rw [Option.some_inj] at h; rw [← h]; omega
      case isFalse hlen =>
        split at h
        · rw [Option.some_inj] at h
          subst h
          simp [List.length_take]
        · cases h

theorem retryLoop_length_le (llm : Nat → Except Unit String) (question_type : String)
    (count : Nat) : ∀ (attempt remaining : Nat),
    (retryLoop llm question_type count attempt remaining).length ≤ count := by
  intro attempt remaining
  induction remaining generalizing attempt with
  | zero => simp [retryLoop]
  | succ r ih =>
    rw [retryLoop]
    rcases ha : attemptOutcome (llm attempt) question_type count with _ | qs
    · exact ih (attempt + 1)
    · exact attemptOutcome_length ha

theorem retryLoop_two (llm : Nat → Except Unit String) (question_type : String)
    (count attempt : Nat) :
    retryLoop llm question_type count attempt 2 =
      match attemptOutcome (llm attempt) question_type count with
      | some qs => qs
      | none =>
        match attemptOutcome (llm (attempt + 1)) question_type count with
        | some qs => qs
        | none => [] := rfl

/-- If the first attempt's response text is non-empty and recovery yields
records, the batch accepts that attempt: all of them when the count matches
exactly, else the first `count` of them. -/
theorem retryLoop_first_yield (llm : Nat → Except Unit String) (question_type : String)
    (count : Nat) (text : String) (h : llm 0 = Except.ok text) (hne : text ≠ "") :
    ((_extract_json_from_response text question_type).length = count →
      retryLoop llm question_type count 0 2 =
        _extract_json_from_response text question_type) ∧
    (0 < (_extract_json_from_response text question_type).length →
      retryLoop llm question_type count 0 2 =
        (_extract_json_from_response text question_type).take count) := by
  constructor
  · intro hlen
    rw [retryLoop_two, h]
    simp only [attemptOutcome, if_neg hne, if_pos hlen]
  · intro hpos
    rw [retryLoop_two, h]
    by_cases hlen : (_extract_json_from_response text question_type).length = count
    · simp only [attemptOutcome, if_neg hne, if_pos hlen]
      rw [List.take_of_length_le (le_of_eq hlen)]
    · simp only [attemptOutcome, if_neg hne, if_neg hlen, if_pos hpos]

/-- C1: the recovery function is total (it returns a list on every input:
no exception escapes, as modelled by the embedding being a function into
`List PyDict`); when the fence-stripped text has no `[`, or its last `]` is
not after its first `[`, the result is the empty list, and when both the
strict parse and the post-repair parse fail the result is also the empty
list. -/
theorem c1_recovery_total_empty_on_failure (response_text question_type : String) :
    (bracketSlice (preprocess response_text.toList) = none →
      _extract_json_from_response response_text question_type = []) ∧
    (∀ json_text, bracketSlice (preprocess response_text.toList) = some json_text →
      parseJson json_text = none → parseJson (repairJson json_text) = none →
      _extract_json_from_response response_text question_type = []) := by
  constructor
  · intro h
    simp only [_extract_json_from_response, h]
  · intro jt hb hp hr
    simp only [_extract_json_from_response, hb, hp, hr]

/-- C1 witness: prose with no array, and an unparseable bracketed text that
the repair pass does not save, both recover to the empty list. -/
theorem c1_witness :
    _extract_json_from_response "The model returned prose, not an array." "multiple_choice"
      = [] ∧
    _extract_json_from_response "[unparseable]" "true_false" = [] :=
  ⟨(c1_recovery_total_empty_on_failure "The model returned prose, not an array."
      "multiple_choice").1 rfl,
   (c1_recovery_total_empty_on_failure "[unparseable]" "true_false").2
      "[unparseable]".toList rfl rfl rfl⟩

/-- C2: a type-batch consults the LLM oracle only at attempts 0 and 1 (its
result is unchanged whenever two oracles agree on those attempts), and when
both attempts yield nothing (exception, falsy response or zero recovered
records) the batch returns the empty list — a third attempt is never made. -/
theorem c2_at_most_two_attempts (llm llm' : Nat → Except Unit String) (count : Nat) :
    (llm 0 = llm' 0 → llm 1 = llm' 1 →
      _generate_multiple_choice_questions llm count =
        _generate_multiple_choice_questions llm' count ∧
      _generate_true_false_questions llm count =
        _generate_true_false_questions llm' count) ∧
    (attemptOutcome (llm 0) "multiple_choice" count = none →
      attemptOutcome (llm 1) "multiple_choice" count = none →
      _generate_multiple_choice_questions llm count = []) ∧
    (attemptOutcome (llm 0) "true_false" count = none →
      attemptOutcome (llm 1) "true_false" count = none →
      _generate_true_false_questions llm count = []) := by
  refine ⟨fun h0 h1 => ⟨?_, ?_⟩, fun h0 h1 => ?_, fun h0 h1 => ?_⟩
  · rw [_generate_multiple_choice_questions, _generate_multiple_choice_questions,
      retryLoop_two, retryLoop_two, h0, h1]
  · rw [_generate_true_false_questions, _generate_true_false_questions,
      retryLoop_two, retryLoop_two, h0, h1]
  · rw [_generate_multiple_choice_questions, retryLoop_two, h0]
    simp only [Nat.zero_add, h1]
  · rw [_generate_true_false_questions, retryLoop_two, h0]
    simp only [Nat.zero_add, h1]

/-- C2 witness: an oracle that fails on attempts 0 and 1 but would return a
valid one-record array on attempt 2 still produces an empty batch — the
third attempt is not made. -/
theorem c2_witness :
    _generate_multiple_choice_questions
      (fun i => if i ≤ 1 then Except.error () else
        Except.ok "[\x7b\"question\": \"q\", \"correct_answer\": \"A\"\x7d]") 5 = [] :=
  (c2_at_most_two_attempts
    (fun i => if i ≤ 1 then Except.error () else
      Except.ok "[\x7b\"question\": \"q\", \"correct_answer\": \"A\"\x7d]")
    (fun i => if i ≤ 1 then Except.error () else
      Except.ok "[\x7b\"question\": \"q\", \"correct_answer\": \"A\"\x7d]")
    5).2.1 rfl rfl

/-- C3: a batch result never exceeds the requested count; and if the first
attempt responds with non-empty text whose recovery yields exactly `count`
records they are returned unchanged (no second attempt), while a recovery
yielding any positive number of records is returned truncated to the first
`count` in original order (no second attempt). -/
theorem c3_partial_accept_truncation (llm : Nat → Except Unit String) (count : Nat) :
    ((_generate_multiple_choice_questions llm count).length ≤ count ∧
     (_generate_true_false_questions llm count).length ≤ count) ∧
    (∀ text, llm 0 = Except.ok text → text ≠ "" →
      ((_extract_json_from_response text "multiple_choice").length = count →
        _generate_multiple_choice_questions llm count =
          _extract_json_from_response text "multiple_choice") ∧
      (0 < (_extract_json_from_response text "multiple_choice").length →
        _generate_multiple_choice_questions llm count =
          (_extract_json_from_response text "multiple_choice").take count)) ∧
    (∀ text, llm 0 = Except.ok text → text ≠ "" →
      ((_extract_json_from_response text "true_false").length = count →
        _generate_true_false_questions llm count =
          _extract_json_from_response text "true_false") ∧
      (0 < (_extract_json_from_response text "true_false").length →
        _generate_true_false_questions llm count =
          (_extract_json_from_response text "true_false").take count)) := by
  refine ⟨⟨retryLoop_length_le llm _ count 0 2, retryLoop_length_le llm _ count 0 2⟩,
    fun text h hne => ?_, fun text h hne => ?_⟩
  · exact retryLoop_first_yield llm "multiple_choice" count text h hne
  · exact retryLoop_first_yield llm "true_false" count text h hne

/-- C3 witness: a first attempt recovering two records against a requested
count of one is truncated to the first record, in order. -/
theorem c3_witness :
    _generate_multiple_choice_questions
      (fun _ => Except.ok "[\x7b\"question\": \"q1\", \"correct_answer\": \"A\"\x7d, \x7b\"question\": \"q2\", \"correct_answer\": \"B\"\x7d]") 1 =
      (_extract_json_from_response
        "[\x7b\"question\": \"q1\", \"correct_answer\": \"A\"\x7d, \x7b\"question\": \"q2\", \"correct_answer\": \"B\"\x7d]"
        "multiple_choice").take 1 :=
  ((c3_partial_accept_truncation
      (fun _ => Except.ok "[\x7b\"question\": \"q1\", \"correct_answer\": \"A\"\x7d, \x7b\"question\": \"q2\", \"correct_answer\": \"B\"\x7d]")
      1).2.1
    "[\x7b\"question\": \"q1\", \"correct_answer\": \"A\"\x7d, \x7b\"question\": \"q2\", \"correct_answer\": \"B\"\x7d]"
    rfl (by decide)).2 (by decide)

/-- C5: `generate_quiz` always returns the MultipleChoice batch result
concatenated before the TrueFalse batch result (each batch in its own
order), its total length never exceeds the requested count, and an empty
batch on one side leaves the other side's records intact. -/
theorem c5_concatenation_and_bound (llmMC llmTF : Nat → Except Unit String)
    (num_questions : Nat) (question_types : List String) :
    (generate_quiz llmMC llmTF num_questions question_types =
      (if 0 < mc_count num_questions question_types then
        _generate_multiple_choice_questions llmMC (mc_count num_questions question_types)
      else []) ++
      (if 0 < tf_count num_questions question_types then
        _generate_true_false_questions llmTF (tf_count num_questions question_types)
      else [])) ∧
    (generate_quiz llmMC llmTF num_questions question_types).length ≤ num_questions ∧
    (_generate_true_false_questions llmTF (tf_count num_questions question_types) = [] →
      generate_quiz llmMC llmTF num_questions question_types =
        (if 0 < mc_count num_questions question_types then
          _generate_multiple_choice_questions llmMC (mc_count num_questions question_types)
        else [])) ∧
    (_generate_multiple_choice_questions llmMC (mc_count num_questions question_types) = [] →
      generate_quiz llmMC llmTF num_questions question_types =
        (if 0 < tf_count num_questions question_types then
          _generate_true_false_questions llmTF (tf_count num_questions question_types)
        else [])) := by
  refine ⟨rfl, ?_, fun h => ?_, fun h => ?_⟩
  · rw [generate_quiz, List.length_append]
    have h1 : (if 0 < mc_count num_questions question_types then
        _generate_multiple_choice_questions llmMC (mc_count num_questions question_types)
      else []).length ≤ mc_count num_questions question_types := by
      split
      · exact retryLoop_length_le llmMC _ _ 0 2
      · simp
    have h2 : (if 0 < tf_count num_questions question_types then
        _generate_true_false_questions llmTF (tf_count num_questions question_types)
      else []).length ≤ tf_count num_questions question_types := by
      split
      · exact retryLoop_length_le llmTF _ _ 0 2
      · simp
    have h3 := counts_sum_le num_questions question_types
    omega
  · rw [generate_quiz]
    by_cases htf : 0 < tf_count num_questions question_types
    · rw [if_pos htf, h, List.append_nil]
    · rw [if_neg htf, List.append_nil]
  · rw [generate_quiz]
    by_cases hmc : 0 < mc_count num_questions question_types
    · rw [if_pos hmc, h, List.nil_append]
    · rw [if_neg hmc, List.nil_append]

/-- C5 witness: with a TrueFalse batch that fails both attempts, the quiz is
exactly the (gated) MultipleChoice batch result. -/
theorem c5_witness :
    generate_quiz (fun _ => Except.ok "[\x7b\"question\": \"q\", \"correct_answer\": \"A\"\x7d]")
      (fun _ => Except.error ()) 2 ["Multiple Choice", "True/False"] =
      (if 0 < mc_count 2 ["Multiple Choice", "True/False"] then
        _generate_multiple_choice_questions
          (fun _ => Except.ok "[\x7b\"question\": \"q\", \"correct_answer\": \"A\"\x7d]")
          (mc_count 2 ["Multiple Choice", "True/False"])
      else []) :=
  (c5_concatenation_and_bound
    (fun _ => Except.ok "[\x7b\"question\": \"q\", \"correct_answer\": \"A\"\x7d]")
    (fun _ => Except.error ()) 2 ["Multiple Choice", "True/False"]).2.2.1 rfl

/-- C4 counterexample: at N = 90 with both types requested the code computes
`int(90 * 0.7) = 62` in binary64 (the product evaluates to
62.99999999999999), one less than 70% of 90 rounded down (63); and with an
empty requested type set the sub-counts sum to 0, not to N. -/
theorem c4_counterexample :
    mc_count 90 ["Multiple Choice", "True/False"] = 62 ∧ (62 : Nat) ≠ 7 * 90 / 10 ∧
    mc_count 1 [] + tf_count 1 [] ≠ 1 := by decide

set_option maxHeartbeats 1000000 in
/-- C4 amended: sub-counts are non-negative by type and sum to exactly N
whenever at least one of the two known types is requested; a single
requested type receives all N; with both types requested the MultipleChoice
sub-count is `int(N * 0.7)` computed in binary64, which equals 70% of N
rounded down for every N < 90 (so on the UI range 5..50, and at the spec's
example N = 15) but not at N = 90; and a zero sub-count skips that batch
entirely (the result does not depend on that batch's oracle). -/
theorem c4_partitioner_amended :
    (∀ (n : Nat) (qt : List String), "Multiple Choice" ∈ qt ∨ "True/False" ∈ qt →
      mc_count n qt + tf_count n qt = n) ∧
    (∀ (n : Nat) (qt : List String), "Multiple Choice" ∈ qt → "True/False" ∈ qt →
      mc_count n qt = pyInt07 n) ∧
    (∀ n : Nat, n < 90 → pyInt07 n = 7 * n / 10) ∧
    (∀ (n : Nat) (qt : List String), "Multiple Choice" ∈ qt → "True/False" ∉ qt →
      mc_count n qt = n ∧ tf_count n qt = 0) ∧
    (∀ (n : Nat) (qt : List String), "Multiple Choice" ∉ qt → "True/False" ∈ qt →
      mc_count n qt = 0 ∧ tf_count n qt = n) ∧
    (∀ (llmMC llmMC' llmTF : Nat → Except Unit String) (n : Nat) (qt : List String),
      mc_count n qt = 0 →
      generate_quiz llmMC llmTF n qt = generate_quiz llmMC' llmTF n qt) ∧
    (∀ (llmMC llmTF llmTF' : Nat → Except Unit String) (n : Nat) (qt : List String),
      tf_count n qt = 0 →
      generate_quiz llmMC llmTF n qt = generate_quiz llmMC llmTF' n qt) := by
  refine ⟨counts_sum_eq, fun n qt hmc htf => ?_, by decide,
    fun n qt hmc htf => ?_, fun n qt hmc htf => ?_,
    fun llmMC llmMC' llmTF n qt h => ?_, fun llmMC llmTF llmTF' n qt h => ?_⟩
  · rw [mc_count, if_pos (And.intro hmc htf)]
  · constructor
    · rw [mc_count]
      simp [hmc, htf]
    · rw [tf_count]
      simp [hmc, htf]
  · constructor
    · rw [mc_count]
      simp [hmc, htf]
    · rw [tf_count]
      simp [hmc, htf]
  · rw [generate_quiz, generate_quiz, h]
    simp
  · rw [generate_quiz, generate_quiz, h]
    simp

/-- C4 witness: at the spec's example N = 15 with both types requested, the
sub-counts sum to 15 and MultipleChoice receives 70% of 15 rounded down. -/
theorem c4_witness :
    mc_count 15 ["Multiple Choice", "True/False"] +
      tf_count 15 ["Multiple Choice", "True/False"] = 15 ∧
    mc_count 15 ["Multiple Choice", "True/False"] = 7 * 15 / 10 :=
  ⟨c4_partitioner_amended.1 15 ["Multiple Choice", "True/False"] (Or.inl (by decide)),
   by rw [c4_partitioner_amended.2.1 15 ["Multiple Choice", "True/False"]
        (by decide) (by decide),
      c4_partitioner_amended.2.2.1 15 (by decide)]⟩

/-- C6: when the strict parse of the bracket-delimited substring fails, the
recovery result is whatever re-parsing the repaired text (single quotes
replaced by double quotes, trailing commas before closing brackets and
braces removed) produces; in particular the spec's example with single
quotes and a trailing comma recovers exactly one record. -/
theorem c6_repair_pass (response_text question_type : String) :
    (∀ json_text, bracketSlice (preprocess response_text.toList) = some json_text →
      parseJson json_text = none →
      _extract_json_from_response response_text question_type =
        (match parseJson (repairJson json_text) with
         | some (JVal.arr l) => processQuestions l question_type
         | _ => [])) ∧
    _extract_json_from_response "[\x7b'question': 'Q?', 'correct_answer': 'A',\x7d]"
        "multiple_choice" =
      [[("question", JVal.str "Q?"), ("correct_answer", JVal.str "A"),
        ("type", JVal.str "multiple_choice")]] := by
  constructor
  · intro jt hb hp
    simp only [_extract_json_from_response, hb, hp]
  · rfl

/-- C6 witness: a bracketed text that fails the strict parse is recovered
through the repair pass, as the theorem's equation states. -/
theorem c6_witness :
    _extract_json_from_response "[\x7b'statement': 1,\x7d]" "true_false" =
      (match parseJson (repairJson "[\x7b'statement': 1,\x7d]".toList) with
       | some (JVal.arr l) => processQuestions l "true_false"
       | _ => []) :=
  (c6_repair_pass "[\x7b'statement': 1,\x7d]" "true_false").1
    "[\x7b'statement': 1,\x7d]".toList rfl rfl

/-- C9: when the primary extraction returns text whose stripped length is at
most 50 and the fallback yields nothing usable (absent, or stripped length
at most 100), `extract_text_from_pdf` returns the diagnostic failure string
instead of raising — but that sentinel is non-empty, so app.py's
`if extracted_text.strip():` gate marks the PDF processed and quiz
generation is NOT blocked, contradicting the claim's second half (the app's
"no text could be extracted" branch is unreachable). -/
theorem c9_failure_sentinel_passes_gate (text : String) (fallback : Option String)
    (h1 : (pyStrip text.toList).length ≤ 50)
    (h2 : ∀ t2, fallback = some t2 → (pyStrip t2.toList).length ≤ 100) :
    extract_text_from_pdf (Except.ok text) fallback = no_readable_msg ∧
    app_marks_pdf_processed no_readable_msg = true := by
  refine ⟨?_, by decide⟩
  simp only [extract_text_from_pdf]
  have hc1 : ¬(text ≠ "" ∧ 50 < (pyStrip text.toList).length) := by
    rintro ⟨-, hl⟩
    omega
  rw [if_neg hc1]
  cases fallback with
  | none => rfl
  | some t2 =>
    have ht2 := h2 t2 rfl
    have hc2 : ¬(t2 ≠ "" ∧ 100 < (pyStrip t2.toList).length) := by
      rintro ⟨-, hl⟩
      omega
    show (if t2 ≠ "" ∧ 100 < (pyStrip t2.toList).length then t2 else no_readable_msg) =
      no_readable_msg
    rw [if_neg hc2]

/-- C9 witness: a PDF whose primary extraction yields empty text and whose
fallback is unavailable produces the sentinel, and the app still marks the
PDF as processed. -/
theorem c9_witness :
    extract_text_from_pdf (Except.ok "") none = no_readable_msg ∧
    app_marks_pdf_processed no_readable_msg = true :=
  c9_failure_sentinel_passes_gate "" none (by decide) (fun t2 h => nomatch h)

/-- C10: every record returned by the recovery function has a `question`
key, a `correct_answer` key, and a `type` key holding exactly the expected
type tag; the per-element loop is an order-preserving filter
(`List.filterMap`) over the parsed array; and every non-empty result is the
filter of an array obtained from the strict parse, or from the post-repair
parse when the strict parse failed. -/
theorem c10_element_shape_and_order (response_text question_type : String) :
    (∀ q, q ∈ _extract_json_from_response response_text question_type →
      hasKey q "question" = true ∧ hasKey q "correct_answer" = true ∧
        pyLookup q "type" = some (JVal.str question_type)) ∧
    (∀ l : List JVal, processQuestions l question_type =
      l.filterMap (keepRecord question_type)) ∧
    (_extract_json_from_response response_text question_type ≠ [] →
      ∃ json_text l, bracketSlice (preprocess response_text.toList) = some json_text ∧
        (parseJson json_text = some (JVal.arr l) ∨
          (parseJson json_text = none ∧
            parseJson (repairJson json_text) = some (JVal.arr l))) ∧
        _extract_json_from_response response_text question_type =
          processQuestions l question_type) := by
  refine ⟨fun q h => mem_extract_keys h,
    fun l => processQuestions_eq_filterMap l question_type, fun hne => ?_⟩
  rw [_extract_json_from_response] at hne ⊢
  rcases hb : bracketSlice (preprocess response_text.toList) with _ | jt
  · rw [hb] at hne
    simp at hne
  · simp only [hb] at hne ⊢
    rcases hp : parseJson jt with _ | v
    · simp only [hp] at hne ⊢
      rcases hr : parseJson (repairJson jt) with _ | w
      · simp only [hr] at hne
        exact absurd rfl hne
      · simp only [hr] at hne ⊢
        cases w with
        | arr l => exact ⟨jt, l, rfl, Or.inr ⟨hp, hr⟩, rfl⟩
        | null => simp at hne
        | bool b => simp at hne
        | num raw => simp at hne
        | str s => simp at hne
        | obj kvs => simp at hne
    · simp only [hp] at hne ⊢
      cases v with
      | arr l => exact ⟨jt, l, rfl, Or.inl hp, rfl⟩
      | null => simp at hne
      | bool b => simp at hne
      | num raw => simp at hne
      | str s => simp at hne
      | obj kvs => simp at hne

/-- C10 witness: the record recovered from a concrete response carries the
required keys and the expected tag. -/
theorem c10_witness :
    hasKey [("question", JVal.str "w"), ("correct_answer", JVal.str "True"),
      ("type", JVal.str "true_false")] "question" = true ∧
    hasKey [("question", JVal.str "w"), ("correct_answer", JVal.str "True"),
      ("type", JVal.str "true_false")] "correct_answer" = true ∧
    pyLookup [("question", JVal.str "w"), ("correct_answer", JVal.str "True"),
      ("type", JVal.str "true_false")] "type" = some (JVal.str "true_false") :=
  (c10_element_shape_and_order
      "[\x7b\"question\": \"w\", \"correct_answer\": \"True\"\x7d]" "true_false").1
    [("question", JVal.str "w"), ("correct_answer", JVal.str "True"),
      ("type", JVal.str "true_false")]
    (List.Mem.head _)

/-! Helper lemmas: the validator predicates. -/

theorem isStrVal_iff (v : Option JVal) (s : String) :
    isStrVal v s = true ↔ v = some (JVal.str s) := by
  cases v with
  | none => simp [isStrVal]
  | some j => cases j <;> simp [isStrVal]

theorem answerIn_iff (v : Option JVal) (choices : List String) :
    answerIn v choices = true ↔ ∃ s, v = some (JVal.str s) ∧ s ∈ choices := by
  cases v with
  | none => simp [answerIn]
  | some j => cases j <;> simp [answerIn]

theorem required_ok_iff (q : PyDict) :
    required_ok q = true ↔
      (hasKey q "question" = true ∧ hasKey q "correct_answer" = true ∧
        hasKey q "type" = true) := by
  rw [required_ok]
  simp [Bool.and_eq_true, and_assoc]

/-- C7: the utils schema validator accepts a record iff it has the three
required fields, and: for type multiple_choice, a list-valued options field
of exactly 4 entries with correct_answer one of A/B/C/D; for type
true_false, correct_answer True or False; any other type value is invalid.
The spec's three concrete examples (3 options invalid; 4 options with
answer E invalid; 4 options with answer B valid) are included. -/
theorem c7_validator_characterization :
    (∀ q : PyDict, validate_question_data q = true ↔
      (hasKey q "question" = true ∧ hasKey q "correct_answer" = true ∧
        hasKey q "type" = true ∧
        ((pyLookup q "type" = some (JVal.str "multiple_choice") ∧
          (∃ l, pyLookup q "options" = some (JVal.arr l) ∧ l.length = 4) ∧
          (∃ s, pyLookup q "correct_answer" = some (JVal.str s) ∧
            (s = "A" ∨ s = "B" ∨ s = "C" ∨ s = "D"))) ∨
         (pyLookup q "type" = some (JVal.str "true_false") ∧
          (∃ s, pyLookup q "correct_answer" = some (JVal.str s) ∧
            (s = "True" ∨ s = "False")))))) ∧
    validate_question_data
      [("question", JVal.str "q"),
       ("options", JVal.arr [JVal.str "a", JVal.str "b", JVal.str "c"]),
       ("correct_answer", JVal.str "A"), ("type", JVal.str "multiple_choice")] = false ∧
    validate_question_data
      [("question", JVal.str "q"),
       ("options", JVal.arr [JVal.str "a", JVal.str "b", JVal.str "c", JVal.str "d"]),
       ("correct_answer", JVal.str "E"), ("type", JVal.str "multiple_choice")] = false ∧
    validate_question_data
      [("question", JVal.str "q"),
       ("options", JVal.arr [JVal.str "a", JVal.str "b", JVal.str "c", JVal.str "d"]),
       ("correct_answer", JVal.str "B"), ("type", JVal.str "multiple_choice")] = true := by
  refine ⟨fun q => ?_, by decide, by decide, by decide⟩
  rw [validate_question_data]
  by_cases hreq : required_ok q = true
  case neg =>
    rw [if_pos hreq]
    constructor
    · intro h
      simp at h
    · rintro ⟨hq1, hq2, hq3, -⟩
      exact absurd ((required_ok_iff q).mpr ⟨hq1, hq2, hq3⟩) hreq
  case pos =>
    obtain ⟨hq1, hq2, hq3⟩ := (required_ok_iff q).mp hreq
    rw [if_neg (not_not_intro hreq)]
    by_cases hmc : isStrVal (pyLookup q "type") "multiple_choice" = true
    · have htype := (isStrVal_iff _ _).mp hmc
      rw [if_pos hmc]
      rcases hopt : pyLookup q "options" with _ | opts
      · simp [htype, hopt, hq1, hq2, hq3]
      · cases opts with
        | arr l =>
          by_cases hlen : l.length = 4
          · have h4 : ¬l.length ≠ 4 := not_not_intro hlen
            simp only [hopt, if_neg h4]
            rw [answerIn_iff]
            simp [htype, hq1, hq2, hq3, hlen]
          · simp only [hopt, if_pos hlen]
            simp [htype, hq1, hq2, hq3, hlen]
        | null => simp [htype, hopt, hq1, hq2, hq3]
        | bool b => simp [htype, hopt, hq1, hq2, hq3]
        | num raw => simp [htype, hopt, hq1, hq2, hq3]
        | str s => simp [htype, hopt, hq1, hq2, hq3]
        | obj kvs => simp [htype, hopt, hq1, hq2, hq3]
    · rw [if_neg hmc]
      by_cases htf : isStrVal (pyLookup q "type") "true_false" = true
      · have htype := (isStrVal_iff _ _).mp htf
        rw [if_pos htf, answerIn_iff]
        simp [htype, hq1, hq2, hq3]
      · rw [if_neg htf]
        constructor
        · intro h
          simp at h
        · rintro ⟨-, -, -, ⟨ht, -, -⟩ | ⟨ht, -⟩⟩
          · exact absurd ((isStrVal_iff _ _).mpr ht) hmc
          · exact absurd ((isStrVal_iff _ _).mpr ht) htf

/-- C8 counterexample: on a record whose `type` is neither known tag, the
orchestrator's `validate_quiz_data` accepts (it has no else-reject arm)
while utils' `validate_question_data` rejects — the two validators are not
identical. -/
theorem c8_counterexample :
    validate_quiz_data [[("question", JVal.str "q"), ("correct_answer", JVal.str "x"),
        ("type", JVal.str "short_answer")]] = some true ∧
    validate_question_data [("question", JVal.str "q"), ("correct_answer", JVal.str "x"),
        ("type", JVal.str "short_answer")] = false := by decide

/-- C8 amended: the two validators agree on every single record whose `type`
is `true_false`, or whose `type` is `multiple_choice` with `options` absent
or list-valued (the domains the pipeline produces); they differ on unknown
type tags (and the orchestrator's validator can raise on a `len`-less
options value, where utils' returns False). -/
theorem c8_validators_agree_amended (q : PyDict)
    (h : pyLookup q "type" = some (JVal.str "true_false") ∨
         (pyLookup q "type" = some (JVal.str "multiple_choice") ∧
           (pyLookup q "options" = none ∨ ∃ l, pyLookup q "options" = some (JVal.arr l)))) :
    validate_quiz_data [q] = some (validate_question_data q) := by
  rw [validate_quiz_data, validate_question_data]
  by_cases hreq : required_ok q = true
  case neg => rw [if_pos hreq, if_pos hreq]
  case pos =>
    rw [if_neg (not_not_intro hreq), if_neg (not_not_intro hreq)]
    rcases h with htf | ⟨hmc, hopt⟩
    · have hmcF : ¬isStrVal (pyLookup q "type") "multiple_choice" = true := by
        rw [htf]
        decide
      have htfT : isStrVal (pyLookup q "type") "true_false" = true := by
        rw [htf]
        decide
      rw [if_neg hmcF, if_neg hmcF, if_pos htfT, if_pos htfT]
      by_cases hans : answerIn (pyLookup q "correct_answer") ["True", "False"] = true
      · rw [if_neg (not_not_intro hans), hans, validate_quiz_data]
      · have hansF : answerIn (pyLookup q "correct_answer") ["True", "False"] = false :=
          Bool.not_eq_true _ ▸ (by simpa using hans)
        rw [if_pos hans, hansF]
    · have hmcT : isStrVal (pyLookup q "type") "multiple_choice" = true := by
        rw [hmc]
        decide
      rw [if_pos hmcT, if_pos hmcT]
      rcases hopt with hnone | ⟨l, hsome⟩
      · simp only [hnone]
      · simp only [hsome, pyLen]
        by_cases hlen : l.length ≠ 4
        · rw [if_pos hlen, if_pos hlen]
        · rw [if_neg hlen, if_neg hlen]
          by_cases hans : answerIn (pyLookup q "correct_answer") ["A", "B", "C", "D"] = true
          · rw [if_neg (not_not_intro hans), hans, validate_quiz_data]
          · have hansF : answerIn (pyLookup q "correct_answer") ["A", "B", "C", "D"] = false :=
              Bool.not_eq_true _ ▸ (by simpa using hans)
            rw [if_pos hans, hansF]

/-- C8 witness: on a well-formed TrueFalse record the two validators return
the same boolean. -/
theorem c8_witness :
    validate_quiz_data [[("question", JVal.str "s"), ("correct_answer", JVal.str "True"),
        ("type", JVal.str "true_false")]] =
      some (validate_question_data [("question", JVal.str "s"),
        ("correct_answer", JVal.str "True"), ("type", JVal.str "true_false")]) :=
  c8_validators_agree_amended
    [("question", JVal.str "s"), ("correct_answer", JVal.str "True"),
      ("type", JVal.str "true_false")] (Or.inl rfl)
